import Mathlib

/-!
Shallow embedding of the multi-platform upload orchestration engine of the
examloom-daily-automation repository (src/modules/upload_manager.py).

Every network call the Python code performs is represented by a field of an
oracle environment structure holding the outcome that call would produce.
An outcome `Except.error msg` stands for the Python call raising an
exception whose `str(e)` is `msg` (this uniformly covers `requests` raising
a network error, `raise_for_status()` raising on a non-2xx response, and
`response.json()` failing to parse, since all of them reach the same
`except Exception as e` handler).  An outcome `Except.ok v` stands for a
successful call whose parsed JSON carries the fields recorded in `v`.
A JSON field read with `dict.get(key)` is an `Option`: `none` when the key
is absent.  The `try/except` blocks of the source are translated by
matching on the outcome and turning an error into exactly the failure
record the `except` branch builds, so the total Lean functions embed the
guarantee that no exception escapes a client.

Request payloads (captions, descriptions, tokens inside request bodies) do
not influence the oracle outcomes, so they are elided from the embedding;
only the response-driven control flow of the source is modelled.
-/

namespace ExamLoom

/-- Python truthiness of an optional string: `None` and the empty string are
falsy, every other string is truthy.  Used for the `if not video_id` and
`if ig_user_id:` checks of the source. -/
def falsyOpt : Option String → Bool
  | none => true
  | some s => s == ""

/-- Python string interpolation of an optional string: `None` prints as the
literal text None (as in an f-string interpolating a missing id). -/
def optRepr : Option String → String
  | none => "None"
  | some s => s

/-- Python `a or b` specialised to an optional string on the left: a falsy
left operand (absent or empty) selects the right operand. -/
def pyOrElse (a : Option String) (b : String) : String :=
  match a with
  | none => b
  | some s => if s == "" then b else s

/-- The substring-containment property used by the redaction claim: the
string `s` contains `token` verbatim. -/
def containsSub (token s : String) : Prop :=
  ∃ pre post, s = pre ++ token ++ post

/-- Parsed JSON of the Facebook `upload_phase=start` response, as accessed by
the source: `init_result.get('video_id')` and `init_result.get('upload_url')`. -/
structure FbInitResp where
  video_id : Option String
  upload_url : Option String
deriving DecidableEq, Repr

/-- Parsed JSON of the Instagram media-container creation response, as
accessed by the source: `init_result.get('uri')` and `init_result.get('id')`. -/
structure IgInitResp where
  uri : Option String
  id : Option String
deriving DecidableEq, Repr

/-- Parsed JSON of the Instagram `media_publish` response, as accessed by the
source: `publish_result.get('id')`. -/
structure IgPublishResp where
  id : Option String
deriving DecidableEq, Repr

/-- Parsed JSON of one Instagram processing-status poll response, as accessed
by the source: `status_data.get('status_code')`. -/
structure IgStatusResp where
  status_code : Option String
deriving DecidableEq, Repr

/-- Terminal YouTube API response, as accessed by the source:
`video_id = response['id']` (a response without the id key would raise and
is represented by an error outcome instead). -/
structure YtResp where
  id : String
deriving DecidableEq, Repr

/-- The per-platform upload result dictionary built by the source.  The
`failure` constructor is the dictionary with `success: False` and an `error`
string; the success constructors carry the platform-specific fields. -/
inductive UploadResult where
  | fbSuccess (video_id url response : String)
  | igSuccess (id : Option String) (container_id url : String)
      (response : IgPublishResp)
  | ytSuccess (video_id url : String) (response : YtResp)
  | failure (error : String)
deriving DecidableEq, Repr

/-- The `success` field of a result dictionary. -/
def UploadResult.isSuccess : UploadResult → Bool
  | .failure _ => false
  | _ => true

/-- Oracle for the three HTTP interactions of `_upload_facebook`:
session-init (POST, raise_for_status, json), binary transfer (getsize, open,
POST, raise_for_status) and finish (POST, raise_for_status, json).  The
finish payload is kept opaque as a string, since the source only stores it. -/
structure FbEnv where
  initResp : Except String FbInitResp
  transferResp : Except String Unit
  finishResp : Except String String

/-- Embedding of `_upload_facebook` (src/modules/upload_manager.py lines
128-211).  The whole body is a `try` block; every raised exception is
converted by the `except` branch into `{'success': False, 'error': str(e)}`.
The guard `if not video_id or not upload_url` raises
`Exception("Failed to initialize upload session")`, which that same handler
converts.  On success the result carries the video id and the public URL
built from it.  `getD ""` reads a value the falsy-guard proved present. -/
def uploadFacebook (env : FbEnv) : UploadResult :=
  match env.initResp with
  | .error msg => .failure msg
  | .ok initResult =>
    if falsyOpt initResult.video_id || falsyOpt initResult.upload_url then
      .failure "Failed to initialize upload session"
    else
      let video_id := initResult.video_id.getD ""
      match env.transferResp with
      | .error msg => .failure msg
      | .ok _ =>
        match env.finishResp with
        | .error msg => .failure msg
        | .ok finishResult =>
          .fbSuccess video_id ("https://www.facebook.com/reel/" ++ video_id)
            finishResult

/-- Oracle for `_upload_youtube`: the credential load/refresh dance, service
construction and resumable chunked upload are all external-library calls
inside one `try` block, so a single outcome models the attempt.  An error is
any exception raised in the block; success is the terminal response carrying
the published video id. -/
structure YtEnv where
  outcome : Except String YtResp

/-- Embedding of `_upload_youtube` (src/modules/upload_manager.py lines
213-313): any exception becomes `{'success': False, 'error': str(e)}`;
success yields the video id and the shorts URL built from it. -/
def uploadYouTube (env : YtEnv) : UploadResult :=
  match env.outcome with
  | .error msg => .failure msg
  | .ok response =>
    .ytSuccess response.id ("https://youtube.com/shorts/" ++ response.id)
      response

/-- Embedding of `_get_instagram_account_id` (src/modules/upload_manager.py
lines 339-357).  The argument encodes the discovery interaction: an error is
the GET or json parse raising; `ok none` is a parsed response without the
`instagram_business_account` key; `ok (some none)` is a response where that
key is present but reading `['id']` under it raises (the KeyError is caught
by the same handler); `ok (some (some accountId))` is the linked account id.
Every exceptional path returns `None`. -/
def getInstagramAccountId (resp : Except String (Option (Option String))) :
    Option String :=
  match resp with
  | .error _ => none
  | .ok none => none
  | .ok (some none) => none
  | .ok (some (some accountId)) => some accountId

/-- The outcome of the best-effort permalink lookup of `_upload_instagram`
step 5: the GET or json parse raising (caught by the inner `try`), a non-ok
response (the `if media_response.ok` guard fails), or an ok parsed response
with an optional `permalink` field. -/
inductive PermaOutcome where
  | raised (msg : String)
  | notOk
  | okResp (permalink : Option String)
deriving DecidableEq, Repr

/-- The permalink value after `_upload_instagram` step 5: it stays `None`
unless the lookup succeeded with an ok response carrying the field. -/
def lookupPermalink : PermaOutcome → Option String
  | .raised _ => none
  | .notOk => none
  | .okResp permalink => permalink

/-- Embedding of the processing-status polling loop of `_upload_instagram`
(src/modules/upload_manager.py lines 433-447):
`for i in range(10): time.sleep(5); GET status; json; break on FINISHED or
ERROR`.  `statuses j` is the outcome of the j-th poll (GET plus json parse;
there is no raise_for_status on this call).  The loop is structural on the
remaining iteration count `fuel` with `i` the index of the next poll; the
result on the non-raising path is the index after the last poll together
with the list of sleep delays performed, one 5-second sleep before every
poll.  A raised poll propagates as an error to the enclosing handler. -/
def igPollTrace (statuses : Nat → Except String IgStatusResp) :
    Nat → Nat → Except String (Nat × List Nat)
  | 0, i => .ok (i, [])
  | fuel + 1, i =>
    match statuses i with
    | .error msg => .error msg
    | .ok statusData =>
      if statusData.status_code = some "FINISHED" then .ok (i + 1, [5])
      else if statusData.status_code = some "ERROR" then .ok (i + 1, [5])
      else
        match igPollTrace statuses fuel (i + 1) with
        | .error msg => .error msg
        | .ok (n, ds) => .ok (n, 5 :: ds)

/-- Oracle for the five interactions of `_upload_instagram`: container
creation, binary transfer, publish, the indexed status polls, and the
best-effort permalink lookup. -/
structure IgEnv where
  initResp : Except String IgInitResp
  transferResp : Except String Unit
  publishResp : Except String IgPublishResp
  statusResp : Nat → Except String IgStatusResp
  permalinkResp : PermaOutcome

/-- Embedding of `_upload_instagram` (src/modules/upload_manager.py lines
359-479).  The body is one `try` block converting every raised exception to
`{'success': False, 'error': str(e)}`.  Missing `uri` or `id` in the
container-creation response raises
`Exception("Failed to initialize Instagram upload session")`.  After a
successful publish the status loop runs; a terminal ERROR status or
exhaustion of the 10 polls does not raise.  The final record has
`success: True`, the published media id (possibly `None`), the container id,
and the permalink or, when that is falsy, the fallback URL interpolating the
media id Python-style. -/
def uploadInstagram (env : IgEnv) : UploadResult :=
  match env.initResp with
  | .error msg => .failure msg
  | .ok initResult =>
    if falsyOpt initResult.uri || falsyOpt initResult.id then
      .failure "Failed to initialize Instagram upload session"
    else
      let video_id := initResult.id.getD ""
      match env.transferResp with
      | .error msg => .failure msg
      | .ok _ =>
        match env.publishResp with
        | .error msg => .failure msg
        | .ok publishResult =>
          let ig_media_id := publishResult.id
          match igPollTrace env.statusResp 10 0 with
          | .error msg => .failure msg
          | .ok _ =>
            let permalink := lookupPermalink env.permalinkResp
            .igSuccess ig_media_id video_id
              (pyOrElse permalink
                ("https://www.instagram.com/reel/" ++ optRepr ig_media_id ++ "/"))
              publishResult

/-- The configuration slice read by `upload_all` and
`verify_facebook_token`: the enabled flags of the Facebook and YouTube
sections (tokens and ids only feed request payloads, which the oracle
elides). -/
structure Config where
  fbEnabled : Bool
  ytEnabled : Bool
deriving DecidableEq, Repr

/-- Oracle for one `upload_all` invocation: the Facebook client
interactions, the Instagram-account discovery interaction, the Instagram
client interactions and the YouTube attempt. -/
structure Env where
  fb : FbEnv
  igDiscovery : Except String (Option (Option String))
  ig : IgEnv
  yt : YtEnv

/-- Embedding of `upload_all` (src/modules/upload_manager.py lines 33-84).
The results dictionary is modelled as an association list in insertion
order.  When Facebook is enabled the Facebook client runs, then the linked
Instagram account is discovered and, when the returned id is truthy, the
Instagram client runs; when YouTube is enabled its client runs last. -/
def upload_all (cfg : Config) (env : Env) : List (String × UploadResult) :=
  let fbPart :=
    if cfg.fbEnabled then
      let ig_user_id := getInstagramAccountId env.igDiscovery
      [("facebook", uploadFacebook env.fb)] ++
        (if falsyOpt ig_user_id then []
         else [("instagram", uploadInstagram env.ig)])
    else []
  let ytPart :=
    if cfg.ytEnabled then [("youtube", uploadYouTube env.yt)] else []
  fbPart ++ ytPart

/-- Embedding of `verify_facebook_token` (src/modules/upload_manager.py
lines 86-126).  The argument encodes the debug_token interaction: an error
is the GET or json parse raising; the nested options record the presence of
the `data` key and, inside it, the `expires_at` key, mirroring the check
`if 'data' in data and 'expires_at' in data['data']`.  A zero `expires_at`
yields the sentinel 9999; otherwise the whole days remaining are
`(datetime.fromtimestamp(expires_at) - datetime.now()).days`, whose
`timedelta.days` is the floor of the second difference over 86400, modelled
with `Int.fdiv` against the current timestamp `now`. -/
def verify_facebook_token (enabled : Bool)
    (resp : Except String (Option (Option Int))) (now : Int) : Option Int :=
  if enabled then
    match resp with
    | .error _ => none
    | .ok none => none
    | .ok (some none) => none
    | .ok (some (some expires_at)) =>
      if expires_at == 0 then some 9999
      else some (Int.fdiv (expires_at - now) 86400)
  else none

/-- Embedding of the loop of `_retry_upload` (src/modules/upload_manager.py
lines 315-337).  `f attempt` is the result of the call made on iteration
`attempt`.  The loop is structural on `fuel`, kept in sync with
`maxAttempts - attempt` by the caller; the branch condition
`attempt + 1 < maxAttempts` is the literal `attempt < max_attempts - 1` of
the source.  The value is the returned result, the number of calls made,
and the list of backoff delays `baseDelay * 2 ^ attempt` slept between
consecutive attempts. -/
def retryGo (f : Nat → UploadResult) (baseDelay maxAttempts : Nat) :
    Nat → Nat → UploadResult × Nat × List Nat
  | attempt, fuel =>
    let result := f attempt
    if result.isSuccess then (result, attempt + 1, [])
    else if attempt + 1 < maxAttempts then
      match fuel with
      | 0 => (result, attempt + 1, [])
      | fuel + 1 =>
        let delay := baseDelay * 2 ^ attempt
        let rest := retryGo f baseDelay maxAttempts (attempt + 1) fuel
        (rest.1, rest.2.1, delay :: rest.2.2)
    else (result, attempt + 1, [])

/-- Embedding of `_retry_upload` with its hard-coded `max_attempts = 3` and
`base_delay = 5`. -/
def retry_upload (f : Nat → UploadResult) : UploadResult × Nat × List Nat :=
  retryGo f 5 3 0 3

/-- A status poll response on which the loop breaks: `status_code` equal to
FINISHED or to ERROR. -/
def isTerminal (r : IgStatusResp) : Bool :=
  r.status_code == some "FINISHED" || r.status_code == some "ERROR"

/-- When the left operand of the Python `or` is falsy, the right operand is
selected. -/
theorem pyOrElse_of_falsy (a : Option String) (b : String)
    (h : falsyOpt a = true) : pyOrElse a b = b := by
  cases a with
  | none => rfl
  | some s =>
    simp only [falsyOpt] at h
    simp [pyOrElse, h]

/-- When every status poll parses, the polling loop returns without raising:
the final poll index lies between the start index and start plus fuel, and
one 5-second sleep was performed per poll. -/
theorem igPollTrace_total (st : Nat → Except String IgStatusResp)
    (h : ∀ j, ∃ r, st j = Except.ok r) :
    ∀ fuel i, ∃ n, igPollTrace st fuel i =
        Except.ok (n, List.replicate (n - i) 5) ∧ i ≤ n ∧ n ≤ i + fuel := by
  intro fuel
  induction fuel with
  | zero =>
    intro i
    exact ⟨i, by simp [igPollTrace], Nat.le_refl i, by omega⟩
  | succ fu ih =>
    intro i
    obtain ⟨r, hr⟩ := h i
    by_cases hfin : r.status_code = some "FINISHED"
    · refine ⟨i + 1, ?_, by omega, by omega⟩
      simp [igPollTrace, hr, hfin, Nat.add_sub_cancel_left]
    · by_cases herr : r.status_code = some "ERROR"
      · refine ⟨i + 1, ?_, by omega, by omega⟩
        simp [igPollTrace, hr, hfin, herr, Nat.add_sub_cancel_left]
      · obtain ⟨n, hn, hin, hle⟩ := ih (i + 1)
        refine ⟨n, ?_, by omega, by omega⟩
        simp only [igPollTrace, hr, hfin, herr, if_false, hn]
        have hrepl : List.replicate (n - i) (5 : Nat) =
            5 :: List.replicate (n - (i + 1)) 5 := by
          rw [show n - i = (n - (i + 1)) + 1 by omega, List.replicate_succ]
        rw [hrepl]

/-- The polling loop stops at the first terminal status: when every poll
before index k parses as non-terminal and poll k parses as terminal, the
loop makes exactly k + 1 polls with one 5-second sleep each. -/
theorem igPollTrace_stops (st : Nat → Except String IgStatusResp) :
    ∀ fuel i k, i ≤ k → k < i + fuel →
      (∀ j, i ≤ j → j < k → ∃ r, st j = Except.ok r ∧ isTerminal r = false) →
      (∃ r, st k = Except.ok r ∧ isTerminal r = true) →
      igPollTrace st fuel i =
        Except.ok (k + 1, List.replicate (k + 1 - i) 5) := by
  intro fuel
  induction fuel with
  | zero => intro i k h1 h2 _ _; omega
  | succ fu ih =>
    intro i k hik hk hbefore hterm
    obtain ⟨r, hr, hr2⟩ := hterm
    by_cases hik0 : i = k
    · subst hik0
      have : r.status_code = some "FINISHED" ∨ r.status_code = some "ERROR" := by
        simp only [isTerminal, Bool.or_eq_true, beq_iff_eq] at hr2
        exact hr2
      rcases this with hfin | herr
      · simp [igPollTrace, hr, hfin, Nat.add_sub_cancel_left]
      · simp [igPollTrace, hr, herr, Nat.add_sub_cancel_left]
    · have hlt : i < k := by omega
      obtain ⟨r0, hr0, hnt⟩ := hbefore i (Nat.le_refl i) hlt
      have hnofin : ¬ r0.status_code = some "FINISHED" := by
        simp only [isTerminal, Bool.or_eq_false_iff, beq_eq_false_iff_ne,
          ne_eq] at hnt
        exact hnt.1
      have hnoerr : ¬ r0.status_code = some "ERROR" := by
        simp only [isTerminal, Bool.or_eq_false_iff, beq_eq_false_iff_ne,
          ne_eq] at hnt
        exact hnt.2
      have hrec := ih (i + 1) k (by omega) (by omega)
        (fun j hij hjk => hbefore j (by omega) hjk) ⟨r, hr, hr2⟩
      simp only [igPollTrace, hr0, hnofin, hnoerr, if_false, hrec]
      have hrepl : List.replicate (k + 1 - i) (5 : Nat) =
          5 :: List.replicate (k + 1 - (i + 1)) 5 := by
        rw [show k + 1 - i = (k + 1 - (i + 1)) + 1 by omega, List.replicate_succ]
      rw [hrepl]

/-- C1: the claim as stated is false on the code.  A Facebook upload attempt
whose raised error text contains the literal access token verbatim produces
a Failure whose error field is that raw text unchanged, so the token is
still present and no redaction marker was applied. -/
theorem c1_counterexample :
    uploadFacebook
      { initResp := Except.error
          "Invalid OAuth access token EAAtokSECRET provided",
        transferResp := Except.ok (), finishResp := Except.ok "" } =
      UploadResult.failure "Invalid OAuth access token EAAtokSECRET provided"
    ∧ containsSub "EAAtokSECRET"
        "Invalid OAuth access token EAAtokSECRET provided" :=
  ⟨rfl, ⟨"Invalid OAuth access token ", " provided", rfl⟩⟩

/-- C1 (amended): for every platform client, when an upload step raises with
an error text containing the literal access token, the error field of the
returned Failure result is that raw text verbatim, token included; no
redaction is applied at the platform-client boundary. -/
theorem c1_unredacted_error (tok msg : String) (h : containsSub tok msg)
    (t : Except String Unit) (fin : Except String String)
    (tr : Except String Unit) (pub : Except String IgPublishResp)
    (st : Nat → Except String IgStatusResp) (p : PermaOutcome) :
    uploadFacebook
      { initResp := Except.error msg, transferResp := t,
        finishResp := fin } = UploadResult.failure msg
  ∧ uploadInstagram
      { initResp := Except.error msg, transferResp := tr,
        publishResp := pub, statusResp := st, permalinkResp := p } =
      UploadResult.failure msg
  ∧ uploadYouTube { outcome := Except.error msg } = UploadResult.failure msg
  ∧ containsSub tok msg :=
  ⟨rfl, rfl, rfl, h⟩

/-- Witness for the amended C1 at a concrete raised error containing a
concrete token. -/
theorem c1_unredacted_error_witness :
    containsSub "EAAtokSECRET" "boom EAAtokSECRET end" ∧
    uploadFacebook
      { initResp := Except.error "boom EAAtokSECRET end",
        transferResp := Except.ok (), finishResp := Except.ok "" } =
      UploadResult.failure "boom EAAtokSECRET end" :=
  ⟨⟨"boom ", " end", rfl⟩,
    (c1_unredacted_error "EAAtokSECRET" "boom EAAtokSECRET end"
      ⟨"boom ", " end", rfl⟩ (Except.ok ()) (Except.ok "") (Except.ok ())
      (Except.ok { id := none }) (fun _ => Except.ok { status_code := none })
      PermaOutcome.notOk).1⟩

/-- C3: a session-init response missing a required field (Facebook:
video_id or upload_url; Instagram: uri or id) makes the client return a
Failure result carrying the reason raised by the guard; the exception is
absorbed by the client boundary, which the totality of the embedded client
functions reflects. -/
theorem c3_missing_init_field
    (fbInit : FbInitResp)
    (hf : fbInit.video_id = none ∨ fbInit.upload_url = none)
    (igInit : IgInitResp) (hi : igInit.uri = none ∨ igInit.id = none)
    (t : Except String Unit) (fin : Except String String)
    (tr : Except String Unit) (pub : Except String IgPublishResp)
    (st : Nat → Except String IgStatusResp) (p : PermaOutcome) :
    uploadFacebook
      { initResp := Except.ok fbInit, transferResp := t,
        finishResp := fin } =
      UploadResult.failure "Failed to initialize upload session"
  ∧ uploadInstagram
      { initResp := Except.ok igInit, transferResp := tr,
        publishResp := pub, statusResp := st, permalinkResp := p } =
      UploadResult.failure "Failed to initialize Instagram upload session" := by
  constructor
  · rcases hf with h | h <;> simp [uploadFacebook, falsyOpt, h]
  · rcases hi with h | h <;> simp [uploadInstagram, falsyOpt, h]

/-- Witness for C3 at concrete responses each missing one field. -/
theorem c3_missing_init_field_witness :
    (({ video_id := none, upload_url := some "https://up/1" } :
        FbInitResp).video_id = none ∨
      ({ video_id := none, upload_url := some "https://up/1" } :
        FbInitResp).upload_url = none) ∧
    (({ uri := some "https://up/2", id := none } : IgInitResp).uri = none ∨
      ({ uri := some "https://up/2", id := none } : IgInitResp).id = none) ∧
    uploadFacebook
      { initResp := Except.ok
          { video_id := none, upload_url := some "https://up/1" },
        transferResp := Except.ok (), finishResp := Except.ok "" } =
      UploadResult.failure "Failed to initialize upload session" :=
  ⟨Or.inl rfl, Or.inr rfl,
    (c3_missing_init_field
      { video_id := none, upload_url := some "https://up/1" } (Or.inl rfl)
      { uri := some "https://up/2", id := none } (Or.inr rfl)
      (Except.ok ()) (Except.ok "") (Except.ok ())
      (Except.ok { id := none }) (fun _ => Except.ok { status_code := none })
      PermaOutcome.notOk).1⟩

/-- C6: the token health check returns the sentinel 9999 when expires_at is
zero, the floor of the remaining seconds over 86400 (whole days remaining)
when expires_at is nonzero, and nothing when the introspection call raised,
the response lacked the data key, or the data object lacked the expires_at
key; no path raises, as the total embedded function reflects. -/
theorem c6_verify_token (now : Int) :
    (∀ msg, verify_facebook_token true (Except.error msg) now = none)
  ∧ verify_facebook_token true (Except.ok none) now = none
  ∧ verify_facebook_token true (Except.ok (some none)) now = none
  ∧ verify_facebook_token true (Except.ok (some (some 0))) now = some 9999
  ∧ (∀ e : Int, e ≠ 0 →
      verify_facebook_token true (Except.ok (some (some e))) now =
        some (Int.fdiv (e - now) 86400)) := by
  refine ⟨fun msg => rfl, rfl, rfl, rfl, fun e he => ?_⟩
  simp [verify_facebook_token, he]

/-- Witness for C6: a token expiring 86401 seconds after now is reported as
one whole day remaining. -/
theorem c6_verify_token_witness :
    ((86401 : Int) ≠ 0) ∧
    verify_facebook_token true (Except.ok (some (some 86401))) 0 = some 1 :=
  ⟨by decide, (c6_verify_token 0).2.2.2.2 86401 (by decide)⟩

/-- C7: a Facebook upload whose init response carries a video id and upload
URL and whose transfer and finish steps return 2xx yields a Success result
with that video id and the public URL built by prefixing the reel address
to it. -/
theorem c7_facebook_success (vid url fin : String) (hv : vid ≠ "")
    (hu : url ≠ "") :
    uploadFacebook
      { initResp := Except.ok
          { video_id := some vid, upload_url := some url },
        transferResp := Except.ok (), finishResp := Except.ok fin } =
      UploadResult.fbSuccess vid ("https://www.facebook.com/reel/" ++ vid)
        fin := by
  simp [uploadFacebook, falsyOpt, hv, hu]

/-- Witness for C7: the end-to-end scenario of the spec, init returning
video id 123 and upload URL https://up/123, gives Success with URL
https://www.facebook.com/reel/123. -/
theorem c7_facebook_success_witness :
    ("123" : String) ≠ "" ∧ ("https://up/123" : String) ≠ "" ∧
    uploadFacebook
      { initResp := Except.ok
          { video_id := some "123", upload_url := some "https://up/123" },
        transferResp := Except.ok (), finishResp := Except.ok "ok" } =
      UploadResult.fbSuccess "123" "https://www.facebook.com/reel/123" "ok" :=
  ⟨by decide, by decide,
    c7_facebook_success "123" "https://up/123" "ok" (by decide) (by decide)⟩

/-- C2: with Facebook and YouTube enabled, a Facebook attempt that fails
(every raised exception having been converted to a Failure result, which the
totality of the embedded client reflects) does not disturb the other
platforms: the YouTube entry is still produced and is a Success when the
YouTube attempt succeeds, the Facebook entry records the failure, and the
Instagram entry is still produced whenever a linked account was
discovered. -/
theorem c2_fault_isolation (cfg : Config) (env : Env)
    (hfb : cfg.fbEnabled = true) (hyt : cfg.ytEnabled = true)
    (hfail : (uploadFacebook env.fb).isSuccess = false)
    (resp : YtResp) (hok : env.yt.outcome = Except.ok resp) :
    List.lookup "youtube" (upload_all cfg env) =
      some (UploadResult.ytSuccess resp.id
        ("https://youtube.com/shorts/" ++ resp.id) resp)
  ∧ List.lookup "facebook" (upload_all cfg env) = some (uploadFacebook env.fb)
  ∧ (falsyOpt (getInstagramAccountId env.igDiscovery) = false →
      List.lookup "instagram" (upload_all cfg env) =
        some (uploadInstagram env.ig)) := by
  have hyt2 : uploadYouTube env.yt = UploadResult.ytSuccess resp.id
      ("https://youtube.com/shorts/" ++ resp.id) resp := by
    simp [uploadYouTube, hok]
  cases hig : falsyOpt (getInstagramAccountId env.igDiscovery) <;>
    simp [upload_all, hfb, hyt, hig, hyt2, List.lookup]

/-- Witness for C2: Facebook raising a network error while YouTube succeeds
still yields a YouTube Success entry. -/
theorem c2_fault_isolation_witness :
    (uploadFacebook
      { initResp := Except.error "network down",
        transferResp := Except.ok (), finishResp := Except.ok "" }).isSuccess
      = false ∧
    List.lookup "youtube"
      (upload_all { fbEnabled := true, ytEnabled := true }
        { fb := { initResp := Except.error "network down",
                  transferResp := Except.ok (), finishResp := Except.ok "" },
          igDiscovery := Except.ok none,
          ig := { initResp := Except.error "network down",
                  transferResp := Except.ok (),
                  publishResp := Except.ok { id := none },
                  statusResp := fun _ => Except.ok { status_code := none },
                  permalinkResp := PermaOutcome.notOk },
          yt := { outcome := Except.ok { id := "yt1" } } }) =
      some (UploadResult.ytSuccess "yt1" "https://youtube.com/shorts/yt1"
        { id := "yt1" }) :=
  ⟨by decide,
    (c2_fault_isolation { fbEnabled := true, ytEnabled := true }
      { fb := { initResp := Except.error "network down",
                transferResp := Except.ok (), finishResp := Except.ok "" },
        igDiscovery := Except.ok none,
        ig := { initResp := Except.error "network down",
                transferResp := Except.ok (),
                publishResp := Except.ok { id := none },
                statusResp := fun _ => Except.ok { status_code := none },
                permalinkResp := PermaOutcome.notOk },
        yt := { outcome := Except.ok { id := "yt1" } } }
      rfl rfl (by decide) { id := "yt1" } rfl).1⟩

/-- C4: the Instagram entry of the ResultSet exists exactly when Facebook is
enabled and the discovery step returned a linked account id (necessarily a
non-empty string, which the hypothesis records; the source tests the id for
Python truthiness).  When discovery returns no id, or Facebook is disabled,
the ResultSet has no Instagram entry at all, so no Failure is recorded for
Instagram. -/
theorem c4_instagram_gating (cfg : Config) (env : Env)
    (hid : ∀ s, getInstagramAccountId env.igDiscovery = some s → s ≠ "") :
    ((List.lookup "instagram" (upload_all cfg env)).isSome = true ↔
      cfg.fbEnabled = true ∧
        ∃ s, getInstagramAccountId env.igDiscovery = some s)
  ∧ (∀ s, getInstagramAccountId env.igDiscovery = some s →
      cfg.fbEnabled = true →
      List.lookup "instagram" (upload_all cfg env) =
        some (uploadInstagram env.ig))
  ∧ (getInstagramAccountId env.igDiscovery = none →
      List.lookup "instagram" (upload_all cfg env) = none)
  ∧ (cfg.fbEnabled = false →
      List.lookup "instagram" (upload_all cfg env) = none) := by
  cases hio : getInstagramAccountId env.igDiscovery with
  | none =>
    cases hfb : cfg.fbEnabled <;> cases hyt : cfg.ytEnabled <;>
      simp [upload_all, hfb, hyt, hio, falsyOpt, List.lookup]
  | some s =>
    have hs : s ≠ "" := hid s hio
    have hfalsy : falsyOpt (some s) = false := by simp [falsyOpt, hs]
    cases hfb : cfg.fbEnabled <;> cases hyt : cfg.ytEnabled <;>
      simp [upload_all, hfb, hyt, hio, hfalsy, List.lookup]

/-- Witness for C4: with a discovered account id 42 the ResultSet carries an
Instagram entry holding the Instagram client result. -/
theorem c4_instagram_gating_witness :
    (∀ s, getInstagramAccountId (Except.ok (some (some "42"))) = some s →
      s ≠ "") ∧
    List.lookup "instagram"
      (upload_all { fbEnabled := true, ytEnabled := true }
        { fb := { initResp := Except.error "down",
                  transferResp := Except.ok (), finishResp := Except.ok "" },
          igDiscovery := Except.ok (some (some "42")),
          ig := { initResp := Except.error "down",
                  transferResp := Except.ok (),
                  publishResp := Except.ok { id := none },
                  statusResp := fun _ => Except.ok { status_code := none },
                  permalinkResp := PermaOutcome.notOk },
          yt := { outcome := Except.error "down" } }) =
      some (uploadInstagram
        { initResp := Except.error "down",
          transferResp := Except.ok (),
          publishResp := Except.ok { id := none },
          statusResp := fun _ => Except.ok { status_code := none },
          permalinkResp := PermaOutcome.notOk }) :=
  ⟨fun s h => by
      simp [getInstagramAccountId] at h
      subst h
      decide,
    (c4_instagram_gating { fbEnabled := true, ytEnabled := true }
      { fb := { initResp := Except.error "down",
                transferResp := Except.ok (), finishResp := Except.ok "" },
        igDiscovery := Except.ok (some (some "42")),
        ig := { initResp := Except.error "down",
                transferResp := Except.ok (),
                publishResp := Except.ok { id := none },
                statusResp := fun _ => Except.ok { status_code := none },
                permalinkResp := PermaOutcome.notOk },
        yt := { outcome := Except.error "down" } }
      (fun s h => by
        simp [getInstagramAccountId] at h
        subst h
        decide)).2.1 "42" rfl rfl⟩

/-- C5: the retry wrapper calls the attempt function at most 3 times with
backoff delays 5 then 10 seconds between consecutive attempts: a function
failing twice then succeeding is called exactly 3 times and its Success is
returned; an always-failing function is called exactly 3 times, both delays
are slept, and the last failure is returned; and the first Success at
attempt k short-circuits the remaining attempts after exactly k + 1 calls. -/
theorem c5_retry_policy (f : Nat → UploadResult) :
    ((f 0).isSuccess = false → (f 1).isSuccess = false →
      (f 2).isSuccess = true → retry_upload f = (f 2, 3, [5, 10]))
  ∧ ((∀ i, (f i).isSuccess = false) → retry_upload f = (f 2, 3, [5, 10]))
  ∧ (∀ k, k < 3 → (f k).isSuccess = true →
      (∀ j, j < k → (f j).isSuccess = false) →
      retry_upload f =
        (f k, k + 1, (List.range k).map fun i => 5 * 2 ^ i)) := by
  refine ⟨fun h0 h1 h2 => ?_, fun hall => ?_, fun k hk hks hbefore => ?_⟩
  · simp [retry_upload, retryGo, h0, h1, h2]
  · simp [retry_upload, retryGo, hall 0, hall 1, hall 2]
  · interval_cases k
    · simp [retry_upload, retryGo, hks]
    · have h0 := hbefore 0 (by norm_num)
      simp [retry_upload, retryGo, hks, h0, List.range_succ]
    · have h0 := hbefore 0 (by norm_num)
      have h1 := hbefore 1 (by norm_num)
      simp [retry_upload, retryGo, hks, h0, h1, List.range_succ]

/-- A concrete attempt function for the C5 witness: fails on the first two
calls and succeeds on the third. -/
def c5SampleF : Nat → UploadResult := fun i =>
  if i < 2 then UploadResult.failure "boom"
  else UploadResult.fbSuccess "v" "https://www.facebook.com/reel/v" ""

/-- Witness for C5: the fail-fail-succeed function is called exactly 3 times
with delays 5 and 10 and its Success is returned. -/
theorem c5_retry_policy_witness :
    (c5SampleF 0).isSuccess = false ∧ (c5SampleF 1).isSuccess = false ∧
    (c5SampleF 2).isSuccess = true ∧
    retry_upload c5SampleF = (c5SampleF 2, 3, [5, 10]) :=
  ⟨by decide, by decide, by decide,
    (c5_retry_policy c5SampleF).1 (by decide) (by decide) (by decide)⟩

/-- C8: after a successful create-container, transfer and publish, and with
every status poll parsing, the processing loop polls at most 10 times with
one 5-second sleep per poll, stops right after the first FINISHED or ERROR
status, and the overall Instagram result is a Success carrying the publish
and container ids already obtained, whatever the statuses were (including
an ERROR status or 10 polls without a terminal status). -/
theorem c8_instagram_polling (env : IgEnv) (uri vid : String)
    (hinit : env.initResp = Except.ok { uri := some uri, id := some vid })
    (hu : uri ≠ "") (hv : vid ≠ "")
    (htr : env.transferResp = Except.ok ())
    (pub : IgPublishResp) (hpub : env.publishResp = Except.ok pub)
    (hst : ∀ j, ∃ r, env.statusResp j = Except.ok r) :
    (∃ n, n ≤ 10 ∧ igPollTrace env.statusResp 10 0 =
      Except.ok (n, List.replicate n 5))
  ∧ (∀ k, k < 10 →
      (∀ j, j < k → ∃ r, env.statusResp j = Except.ok r ∧
        isTerminal r = false) →
      (∃ r, env.statusResp k = Except.ok r ∧ isTerminal r = true) →
      igPollTrace env.statusResp 10 0 =
        Except.ok (k + 1, List.replicate (k + 1) 5))
  ∧ uploadInstagram env =
      UploadResult.igSuccess pub.id vid
        (pyOrElse (lookupPermalink env.permalinkResp)
          ("https://www.instagram.com/reel/" ++ optRepr pub.id ++ "/"))
        pub
  ∧ (uploadInstagram env).isSuccess = true := by
  obtain ⟨n, hn, h0, h10⟩ := igPollTrace_total env.statusResp hst 10 0
  have h3 : uploadInstagram env =
      UploadResult.igSuccess pub.id vid
        (pyOrElse (lookupPermalink env.permalinkResp)
          ("https://www.instagram.com/reel/" ++ optRepr pub.id ++ "/"))
        pub := by
    simp [uploadInstagram, hinit, htr, hpub, falsyOpt, hu, hv, hn]
  refine ⟨⟨n, by omega, by simpa using hn⟩, fun k hk hbef hterm => ?_,
    h3, by rw [h3]; rfl⟩
  have := igPollTrace_stops env.statusResp 10 0 k (Nat.zero_le k)
    (by omega) (fun j hj hjk => hbef j hjk) hterm
  simpa using this

/-- Witness for C8: statuses that report ERROR on the third poll (index 2)
stop the loop after 3 polls and leave the result a Success. -/
theorem c8_instagram_polling_witness :
    (∀ j, ∃ r, ((fun i => if i < 2
        then Except.ok { status_code := some "IN_PROGRESS" }
        else Except.ok { status_code := some "ERROR" }) :
      Nat → Except String IgStatusResp) j = Except.ok r) ∧
    (uploadInstagram
      { initResp := Except.ok { uri := some "https://up/9", id := some "c9" },
        transferResp := Except.ok (),
        publishResp := Except.ok { id := some "m9" },
        statusResp := fun i => if i < 2
          then Except.ok { status_code := some "IN_PROGRESS" }
          else Except.ok { status_code := some "ERROR" },
        permalinkResp := PermaOutcome.notOk }).isSuccess = true :=
  ⟨fun j => by
      by_cases h : j < 2 <;> simp [h],
    (c8_instagram_polling
      { initResp := Except.ok { uri := some "https://up/9", id := some "c9" },
        transferResp := Except.ok (),
        publishResp := Except.ok { id := some "m9" },
        statusResp := fun i => if i < 2
          then Except.ok { status_code := some "IN_PROGRESS" }
          else Except.ok { status_code := some "ERROR" },
        permalinkResp := PermaOutcome.notOk }
      "https://up/9" "c9" rfl (by decide) (by decide) rfl
      { id := some "m9" } rfl
      (fun j => by by_cases h : j < 2 <;> simp [h])).2.2.2⟩

/-- C9: the keys of the ResultSet are, in insertion order, a subsequence of
facebook, instagram, youtube, and they are pairwise distinct, so every
platform key present is bound to exactly one UploadResult. -/
theorem c9_resultset_shape (cfg : Config) (env : Env) :
    List.Sublist ((upload_all cfg env).map Prod.fst)
      ["facebook", "instagram", "youtube"]
  ∧ ((upload_all cfg env).map Prod.fst).Nodup
  ∧ ∀ p : String, ((upload_all cfg env).map Prod.fst).count p ≤ 1 := by
  have h : List.Sublist ((upload_all cfg env).map Prod.fst)
      ["facebook", "instagram", "youtube"] ∧
      ((upload_all cfg env).map Prod.fst).Nodup := by
    cases hfb : cfg.fbEnabled <;> cases hyt : cfg.ytEnabled <;>
      cases hig : falsyOpt (getInstagramAccountId env.igDiscovery) <;>
      refine ⟨?_, ?_⟩ <;> simp [upload_all, hfb, hyt, hig] <;> decide
  exact ⟨h.1, h.2, fun p => List.nodup_iff_count_le_one.mp h.2 p⟩

/-- C10: a publish response that parses but lacks the id field still yields
a Success result whose media id is absent and whose URL is the fallback
interpolating the missing id as the text None; a missing publish id is not
treated as a protocol error, unlike missing session-init fields. -/
theorem c10_missing_publish_id (uri vid : String) (hu : uri ≠ "")
    (hv : vid ≠ "") (st : Nat → Except String IgStatusResp)
    (hst : ∀ j, ∃ r, st j = Except.ok r) (p : PermaOutcome)
    (hp : falsyOpt (lookupPermalink p) = true) :
    uploadInstagram
      { initResp := Except.ok { uri := some uri, id := some vid },
        transferResp := Except.ok (),
        publishResp := Except.ok { id := none },
        statusResp := st, permalinkResp := p } =
      UploadResult.igSuccess none vid "https://www.instagram.com/reel/None/"
        { id := none } := by
  obtain ⟨n, hn, h0, h10⟩ := igPollTrace_total st hst 10 0
  simp [uploadInstagram, falsyOpt, hu, hv, hn, optRepr]
  exact pyOrElse_of_falsy _ _ hp

/-- Witness for C10: concrete container fields, a FINISHED status stream and
a failed permalink lookup give the Success with the None-interpolated
fallback URL. -/
theorem c10_missing_publish_id_witness :
    ("https://up/3" : String) ≠ "" ∧ ("c3" : String) ≠ "" ∧
    (∀ j, ∃ r, ((fun _ => Except.ok { status_code := some "FINISHED" }) :
      Nat → Except String IgStatusResp) j = Except.ok r) ∧
    falsyOpt (lookupPermalink PermaOutcome.notOk) = true ∧
    uploadInstagram
      { initResp := Except.ok { uri := some "https://up/3", id := some "c3" },
        transferResp := Except.ok (),
        publishResp := Except.ok { id := none },
        statusResp := fun _ => Except.ok { status_code := some "FINISHED" },
        permalinkResp := PermaOutcome.notOk } =
      UploadResult.igSuccess none "c3" "https://www.instagram.com/reel/None/"
        { id := none } :=
  ⟨by decide, by decide, fun j => ⟨_, rfl⟩, by decide,
    c10_missing_publish_id "https://up/3" "c3" (by decide) (by decide)
      (fun _ => Except.ok { status_code := some "FINISHED" })
      (fun j => ⟨_, rfl⟩) PermaOutcome.notOk (by decide)⟩

end ExamLoom
